import Mathlib

/-!
Shallow embedding of the coordinate-reconciliation and station-assignment
logic of the survey-conversion repository (convert_dxf_to_kml.py,
convert_ifc_to_kml.py, convert_xml_to_kml.py, convert_control_points_to_kml.py,
analyze_coordinate_problem.py, test_ifc_offset.py, test_coordinate_fixes.py).

Python floats are modelled as real numbers (or exact rationals where the code
is pure rational arithmetic); `math.sqrt` becomes `Real.sqrt`; the pyproj
`Transformer.transform` call is an abstract function on horizontal pairs.
-/

namespace ConvertDxfToKml

/-- A DXF point tuple `(x, y, z, layer)` as used throughout
`convert_dxf_to_kml.py` (x = easting, y = northing, z = elevation, in feet). -/
structure DxfPoint where
  x : ℝ
  y : ℝ
  z : ℝ
  layer : String

/-- The 2D step distance `math.sqrt((x2 - x1)**2 + (y2 - y1)**2)` between
consecutive points, from `calculate_cumulative_distances`. -/
noncomputable def dist2D (p q : DxfPoint) : ℝ :=
  Real.sqrt ((q.x - p.x) ^ 2 + (q.y - p.y) ^ 2)

/-- Tail of the cumulative-distance list: given the previous point and the
distance accumulated so far, produce the remaining entries.  Mirrors the
`for i in range(1, len(points))` loop body
`distances.append(distances[-1] + dist)`. -/
noncomputable def cumDistAux (prev : DxfPoint) (acc : ℝ) :
    List DxfPoint → List ℝ
  | [] => []
  | p :: ps => (acc + dist2D prev p) :: cumDistAux p (acc + dist2D prev p) ps

/-- Embedding of `calculate_cumulative_distances(points)` from `convert_dxf_to_kml.py`
(lines 42-65): `[]` for empty input, otherwise `[0.0]` followed by running
sums of consecutive 2D distances. -/
noncomputable def calculate_cumulative_distances :
    List DxfPoint → List ℝ
  | [] => []
  | p :: ps => 0 :: cumDistAux p 0 ps

/-- Round a rational to the nearest integer, ties to even — the rounding used
by Python's fixed-point float formatting (`%.2f`). -/
def roundHalfEven (q : ℚ) : ℤ :=
  let f : ℤ := Int.floor q
  let r : ℚ := q - f
  if r < 1 / 2 then f
  else if 1 / 2 < r then f + 1
  else if f % 2 = 0 then f else f + 1

/-- Left-pad a sign/body pair with `'0'` between the sign and the digits so
that the total width is at least 5 — the `05` in Python's `f"{feet:05.2f}"`. -/
def padZeroWidth5 (sign body : String) : String :=
  sign ++ String.mk (List.replicate (5 - (sign.length + body.length)) '0') ++ body

/-- Python's `f"{q:05.2f}"`: round to two decimals (ties to even), render as
`<int part>.<two frac digits>`, zero-pad to a minimum width of 5. -/
def formatFixed2Pad5 (q : ℚ) : String :=
  let c : ℤ := roundHalfEven (q * 100)
  let sign : String := if c < 0 then ("-") else ("")
  let a : ℕ := c.natAbs
  let body : String :=
    toString (a / 100) ++ "." ++ (if a % 100 < 10 then ("0") else ("")) ++ toString (a % 100)
  padZeroWidth5 sign body

/-- Embedding of `format_station(station_feet)` from `convert_dxf_to_kml.py` (lines 67-79):
`hundreds = int(station_feet // 100); feet = station_feet % 100;
return f"{hundreds}+{feet:05.2f}"`.  Python's `//` is floor division and its
`%` with a positive modulus is `v - 100 * floor(v / 100)`. -/
def format_station (station_feet : ℚ) : String :=
  let hundreds : ℤ := Int.floor (station_feet / 100)
  let feet : ℚ := station_feet - 100 * (Int.floor (station_feet / 100) : ℚ)
  toString hundreds ++ "+" ++ formatFixed2Pad5 feet

/-- The station formatting rule as worded in the spec: the string given by
`floor(v/100)`, a `'+'` sign, and `v mod 100` zero-padded to five characters
with two decimal places. -/
def formatStationSpec (v : ℚ) : String :=
  toString (Int.floor (v / 100)) ++ "+" ++
    formatFixed2Pad5 (v - 100 * (Int.floor (v / 100) : ℚ))

/-- The station value `create_kml` (convert_dxf_to_kml.py lines 216-219)
assigns to point `i` when both stations are supplied:
`progress = cumulative_distances[i] / total_distance;
station_ft = start_station + (end_station - start_station) * progress`,
with `total_distance = cumulative_distances[-1]`. -/
noncomputable def create_kml_station (points : List DxfPoint)
    (start_station end_station : ℝ) (i : ℕ) : ℝ :=
  start_station + (end_station - start_station) *
    ((calculate_cumulative_distances points).getD i 0 /
      (calculate_cumulative_distances points).getLastD 0)

end ConvertDxfToKml

namespace TestCoordinateFixes

open ConvertDxfToKml

/-- The NEW (direct cumulative-sum) station formula from
`test_coordinate_fixes.py` (line 134): `station_ft_new = start_station +
cumulative_distances[i]`. -/
noncomputable def assign_station_direct (points : List DxfPoint)
    (start_station : ℝ) (i : ℕ) : ℝ :=
  start_station + (calculate_cumulative_distances points).getD i 0

/-- The four colinear test points of `test_coordinate_fixes.py` (lines 84-89):
`(100,0,0)`, `(110,0,0)`, `(120,0,0)`, `(130,0,0)`, ten feet apart. -/
noncomputable def test_points : List DxfPoint :=
  [⟨100, 0, 0, "layer0"⟩, ⟨110, 0, 0, "layer0"⟩,
   ⟨120, 0, 0, "layer0"⟩, ⟨130, 0, 0, "layer0"⟩]

end TestCoordinateFixes

namespace AnalyzeCoordinateProblem

/-- Embedding of `calculate_distance_2d(x1, y1, x2, y2)` from `analyze_coordinate_problem.py`
(lines 12-14): `math.sqrt((x2 - x1)**2 + (y2 - y1)**2)`. -/
noncomputable def calculate_distance_2d (x1 y1 x2 y2 : ℝ) : ℝ :=
  Real.sqrt ((x2 - x1) ^ 2 + (y2 - y1) ^ 2)

/-- Embedding of `meters_to_feet(meters)` from `analyze_coordinate_problem.py` (lines 16-19):
`meters / (1200/3937)` — the exact US survey foot definition. -/
def meters_to_feet (meters : ℚ) : ℚ :=
  meters / (1200 / 3937)

/-- Embedding of `feet_to_meters(feet)` from `analyze_coordinate_problem.py` (lines 21-24):
`feet * (1200/3937)`. -/
def feet_to_meters (feet : ℚ) : ℚ :=
  feet * (1200 / 3937)

end AnalyzeCoordinateProblem

namespace TestIfcOffset

/-- A named coordinate record `{easting, northing, elevation}` as used in
`test_ifc_offset.py`. -/
structure IfcPoint where
  easting : ℝ
  northing : ℝ
  elevation : ℝ

/-- Embedding of `calculate_distance(point1, point2)` from `test_ifc_offset.py`
(lines 111-116): 3D Euclidean distance including the elevation delta. -/
noncomputable def calculate_distance (p1 p2 : IfcPoint) : ℝ :=
  Real.sqrt ((p2.easting - p1.easting) ^ 2 + (p2.northing - p1.northing) ^ 2 +
    (p2.elevation - p1.elevation) ^ 2)

/-- Embedding of `calculate_horizontal_distance(point1, point2)` from `test_ifc_offset.py`
(lines 118-122): 2D horizontal distance. -/
noncomputable def calculate_horizontal_distance (p1 p2 : IfcPoint) : ℝ :=
  Real.sqrt ((p2.easting - p1.easting) ^ 2 + (p2.northing - p1.northing) ^ 2)

/-- Embedding of `US_SURVEY_FOOT_TO_METER = 0.3048006096012192` from `test_ifc_offset.py`
(line 57), the double-precision value of 1200/3937. -/
def US_SURVEY_FOOT_TO_METER : ℚ := 0.3048006096012192

/-- Embedding of `meters_to_feet(meters)` from `test_ifc_offset.py` (lines 124-126):
`meters / US_SURVEY_FOOT_TO_METER`. -/
def meters_to_feet (meters : ℚ) : ℚ :=
  meters / US_SURVEY_FOOT_TO_METER

/-- Embedding of `feet_to_meters(feet)` from `test_ifc_offset.py` (lines 128-130):
`feet * US_SURVEY_FOOT_TO_METER`. -/
def feet_to_meters (feet : ℚ) : ℚ :=
  feet * US_SURVEY_FOOT_TO_METER

end TestIfcOffset

namespace ConvertDxfToKml

/-- Embedding of `transform_point(x, y, z, transformer)` from `convert_dxf_to_kml.py`
(lines 26-40): `lon, lat = transformer.transform(x, y); return lon, lat, z`.
The pyproj transformer is an abstract function on the horizontal pair. -/
def transform_point (x y z : ℝ) (transformer : ℝ × ℝ → ℝ × ℝ) : ℝ × ℝ × ℝ :=
  ((transformer (x, y)).1, (transformer (x, y)).2, z)

/-- The scalar unit factor applied to the elevation on the way through
`transform_point`: the function keeps the elevation in its source unit,
so the factor is 1 (the identity unit conversion). -/
def elevation_unit_factor : ℝ := 1

end ConvertDxfToKml

namespace ConvertIfcToKml

/-- Embedding of `transform_point(x, y, z, source_epsg, target_epsg)` from
`convert_ifc_to_kml.py` (lines 28-42): builds a transformer from the CRS
registry (`Transformer.from_crs`, modelled as an abstract registry function),
applies it to `(x, y)` only, and returns `(lon, lat, z)`. -/
def transform_point (registry : String → String → (ℝ × ℝ → ℝ × ℝ))
    (x y z : ℝ) (source_epsg target_epsg : String) : ℝ × ℝ × ℝ :=
  let t := registry source_epsg target_epsg
  ((t (x, y)).1, (t (x, y)).2, z)

/-- The scalar unit factor applied to the elevation by
`convert_ifc_to_kml.transform_point`: the elevation is kept in its source
unit, so the factor is 1. -/
def elevation_unit_factor : ℝ := 1

end ConvertIfcToKml

namespace TestCoordinateFixes

/-- Embedding of `US_SURVEY_FOOT_TO_METER = 0.3048006096` from `test_coordinate_fixes.py`
(line 54). -/
def US_SURVEY_FOOT_TO_METER : ℚ := 0.3048006096

/-- The corrected elevation path of `test_coordinate_fixes.py` (line 55):
`elev_correct_m = TEST_COORDS['z'] * US_SURVEY_FOOT_TO_METER` — a scalar
multiply, not a CRS transform. -/
def elev_correct_m (z : ℚ) : ℚ :=
  z * US_SURVEY_FOOT_TO_METER

end TestCoordinateFixes

namespace ConvertXmlToKml

/-- Embedding of `math.atan2(y, x)`, modelled as the argument of the complex number
`x + y*i`. -/
noncomputable def atan2 (y x : ℝ) : ℝ :=
  Complex.arg ⟨x, y⟩

/-- Embedding of `interpolate_arc(center_x, center_y, start_x, start_y, end_x, end_y,
radius, delta, rotation, num_points)` from `convert_xml_to_kml.py`
(lines 18-57): points along a circular arc from the start angle, sweeping
`delta` degrees (negated for `'cw'` rotation).  The end point parameters are
accepted but unused, as in the source. -/
noncomputable def interpolate_arc (center_x center_y start_x start_y end_x end_y radius delta : ℝ)
    (rotation : String) (num_points : ℕ) : List (ℝ × ℝ) :=
  let start_angle := atan2 (start_y - center_y) (start_x - center_x)
  let delta_rad0 := delta * Real.pi / 180
  let delta_rad := if rotation = "cw" then -delta_rad0 else delta_rad0
  (List.range (num_points + 1)).map fun i =>
    let fraction : ℝ := (i : ℝ) / (num_points : ℝ)
    let angle := start_angle + delta_rad * fraction
    (center_x + radius * Real.cos angle, center_y + radius * Real.sin angle)

/-- A `<Start>`/`<End>`/`<Center>` element: its whitespace-split numeric
tokens, in document order (northing first, easting second). -/
structure LXElement where
  text : List ℝ

/-- One `<Line>` or `<Curve>` child of `<CoordGeom>`, with optional
sub-elements and attributes as found by the source's `find`/`get` calls. -/
inductive LXGeomItem where
  | lineItem (startEl endEl : Option LXElement)
  | curveItem (startEl endEl centerEl : Option LXElement)
      (radius delta : Option ℝ) (rotation : String)

/-- The contribution of one optional `Start`/`End` element in the `Line` loop
(and in the `Curve` fallback branch): when present with at least two tokens,
append `(float(coords[1]), float(coords[0]))` — easting, then northing. -/
noncomputable def lineElementPoints : Option LXElement → List (ℝ × ℝ)
  | none => []
  | some el =>
    if 2 ≤ el.text.length then [(el.text.getD 1 0, el.text.getD 0 0)] else []

/-- The `Line` loop body of `parse_landxml_alignment`
(`convert_xml_to_kml.py` lines 91-107). -/
noncomputable def processLine : LXGeomItem → List (ℝ × ℝ)
  | .lineItem s e => lineElementPoints s ++ lineElementPoints e
  | .curveItem _ _ _ _ _ _ => []

/-- The `Curve` loop body of `parse_landxml_alignment`
(`convert_xml_to_kml.py` lines 110-161): with start, end, center, radius and
delta all present, swap each pair to (easting, northing) and interpolate the
arc with 50 segments; otherwise fall back to the start/end points. -/
noncomputable def processCurve : LXGeomItem → List (ℝ × ℝ)
  | .lineItem _ _ => []
  | .curveItem s e c r d rot =>
    match s, e, c, r, d with
    | some se, some ee, some ce, some rv, some dv =>
        interpolate_arc (ce.text.getD 1 0) (ce.text.getD 0 0)
          (se.text.getD 1 0) (se.text.getD 0 0)
          (ee.text.getD 1 0) (ee.text.getD 0 0) rv dv rot 50
    | _, _, _, _, _ => lineElementPoints s ++ lineElementPoints e

open Classical in
/-- The trailing duplicate-removal loop of `parse_landxml_alignment`
(lines 163-167): keep a point unless it equals the previously kept one. -/
noncomputable def dedupConsecutive : List (ℝ × ℝ) → List (ℝ × ℝ)
  | [] => []
  | [p] => [p]
  | p :: q :: rest =>
    if p = q then dedupConsecutive (q :: rest) else p :: dedupConsecutive (q :: rest)

/-- Embedding of `parse_landxml_alignment` coordinate extraction (lines 86-167): all `Line`
contributions first (first `findall` loop), then all `Curve` contributions
(second `findall` loop), then consecutive duplicates removed. -/
noncomputable def parse_landxml_alignment (items : List LXGeomItem) : List (ℝ × ℝ) :=
  dedupConsecutive ((items.map processLine).flatten ++ (items.map processCurve).flatten)

/-- Embedding of `transform_coordinates(points, ...)` from `convert_xml_to_kml.py`
(lines 176-198): applies the 2D transformer to each stored `(x, y)` =
(easting, northing) pair. -/
def transform_coordinates (transformer : ℝ × ℝ → ℝ × ℝ)
    (points : List (ℝ × ℝ)) : List (ℝ × ℝ) :=
  points.map transformer

end ConvertXmlToKml

namespace ConvertControlPointsToKml

/-- A CSV cell as seen by `read_control_points`: a raw string, which Python's
`float()` either parses to a numeric value or rejects with `ValueError`.
`float()` itself is an external builtin; only its success/value behaviour is
relevant, so a cell carries it directly. -/
inductive Cell where
  | num (val : ℚ) (raw : String)
  | text (raw : String)
deriving DecidableEq

/-- The raw string contents of a cell. -/
def Cell.raw : Cell → String
  | .num _ r => r
  | .text r => r

/-- Python's `float(cell)`: the parsed value, or `none` for `ValueError`. -/
def pyFloat : Cell → Option ℚ
  | .num v _ => some v
  | .text _ => none

/-- A blank cell, used only as the (unreachable) `getD` default. -/
def blankCell : Cell :=
  Cell.text ("")

/-- One parsed control point `{name, easting, northing, elevation}`. -/
structure ControlPoint where
  name : String
  easting : ℚ
  northing : ℚ
  elevation : ℚ
deriving DecidableEq

/-- One iteration of the row loop in `read_control_points`
(`convert_control_points_to_kml.py` lines 35-51): rows with fewer than 6
columns do not enter the `if` body; otherwise the name is `row[1].strip()` and
`float` is applied to columns 3 (northing), 4 (easting), 5 (elevation); a
`ValueError` prints one skip warning and continues.  Returns the produced
point (if any) and the warnings printed. -/
def processRow (row : List Cell) : Option ControlPoint × List String :=
  if 6 ≤ row.length then
    match pyFloat (row.getD 3 blankCell), pyFloat (row.getD 4 blankCell),
        pyFloat (row.getD 5 blankCell) with
    | some northing, some easting, some elevation =>
        (some { name := (row.getD 1 blankCell).raw.trim
                easting := easting, northing := northing, elevation := elevation }, [])
    | _, _, _ => (none, ["Warning: Skipping row due to error"])
  else (none, [])

/-- Embedding of `read_control_points` (lines 17-53): `next(reader)` skips the header row
(raising `StopIteration` on an empty file, modelled as `none`), then the row
loop accumulates points and skip warnings in order. -/
def read_control_points : List (List Cell) → Option (List ControlPoint × List String)
  | [] => none
  | _header :: rows =>
      some (rows.filterMap (fun r => (processRow r).1),
            (rows.map (fun r => (processRow r).2)).flatten)

/-- The claim's notion of a well-formed row: at least 6 columns, and the
northing, easting and elevation fields all parse as numbers. -/
def wellFormedRow (row : List Cell) : Prop :=
  6 ≤ row.length ∧ (pyFloat (row.getD 3 blankCell)).isSome = true ∧
    (pyFloat (row.getD 4 blankCell)).isSome = true ∧
    (pyFloat (row.getD 5 blankCell)).isSome = true

instance (row : List Cell) : Decidable (wellFormedRow row) := by
  unfold wellFormedRow
  infer_instance

/-- A concrete malformed row with only three (non-numeric) columns. -/
def shortRow : List Cell :=
  [Cell.text ("a"), Cell.text ("b"), Cell.text ("c")]

/-- A concrete one-cell header row. -/
def headerRow : List Cell :=
  [Cell.text ("h")]

end ConvertControlPointsToKml

namespace ConvertDxfToKml

theorem dist2D_ten (a c : ℝ) (h : c = a + 10) (y z z' : ℝ) (l l' : String) :
    dist2D ⟨a, y, z, l⟩ ⟨c, y, z', l'⟩ = 10 := by
  subst h
  unfold dist2D
  have : (a + 10 - a) ^ 2 + (y - y) ^ 2 = (10 : ℝ) ^ 2 := by ring
  rw [this, Real.sqrt_sq (by norm_num)]

theorem cum_test_points :
    calculate_cumulative_distances TestCoordinateFixes.test_points = [0, 10, 20, 30] := by
  simp only [TestCoordinateFixes.test_points, calculate_cumulative_distances, cumDistAux]
  rw [dist2D_ten 100 110 (by norm_num), dist2D_ten 110 120 (by norm_num),
    dist2D_ten 120 130 (by norm_num)]
  norm_num

theorem create_kml_station_eval (s e : ℝ) (i : ℕ) :
    create_kml_station TestCoordinateFixes.test_points s e i =
      s + (e - s) * (([0, 10, 20, 30] : List ℝ).getD i 0 / 30) := by
  unfold create_kml_station
  rw [cum_test_points]
  have h : ([0, 10, 20, 30] : List ℝ).getLastD 0 = 30 := rfl
  rw [h]

theorem assign_station_direct_eval (s : ℝ) (i : ℕ) :
    TestCoordinateFixes.assign_station_direct TestCoordinateFixes.test_points s i =
      s + ([0, 10, 20, 30] : List ℝ).getD i 0 := by
  unfold TestCoordinateFixes.assign_station_direct
  rw [cum_test_points]

theorem dist2D_nonneg (p q : DxfPoint) : 0 ≤ dist2D p q :=
  Real.sqrt_nonneg _

theorem cumDistAux_length (ps : List DxfPoint) :
    ∀ (p : DxfPoint) (acc : ℝ), (cumDistAux p acc ps).length = ps.length := by
  induction ps with
  | nil => intro p acc; rfl
  | cons q qs ih => intro p acc; simp [cumDistAux, ih]

theorem cumDistAux_chain (ps : List DxfPoint) :
    ∀ (p : DxfPoint) (acc : ℝ),
      List.Chain' (· ≤ ·) (acc :: cumDistAux p acc ps) := by
  induction ps with
  | nil =>
    intro p acc
    simp [cumDistAux]
  | cons q qs ih =>
    intro p acc
    simp only [cumDistAux, List.chain'_cons]
    exact ⟨le_add_of_nonneg_right (dist2D_nonneg p q), ih q (acc + dist2D p q)⟩

end ConvertDxfToKml

/-- C1: for points with both stations supplied, `create_kml` assigns stations
by interpolating between `start_station` and `end_station`
(`station = start + (end - start) * cumulative/total`), not by the direct
cumulative sum `start + cumulative`: at the repository's own four test points
with start 30000 and end 30050, point 1 gets 30000 + 50·(10/30) = 90050/3 ≈
30016.67, not 30010.  This contradicts the claim (and the repository's own
test file, which labels the interpolation formula WRONG and says
`convert_dxf_to_kml.py` was fixed). -/
theorem c1_create_kml_station_is_interpolated :
    ConvertDxfToKml.create_kml_station TestCoordinateFixes.test_points 30000 30050 1 =
      90050 / 3 ∧
    TestCoordinateFixes.assign_station_direct TestCoordinateFixes.test_points 30000 1 =
      30010 ∧
    (90050 / 3 : ℝ) ≠ 30010 := by
  refine ⟨?_, ?_, by norm_num⟩
  · rw [ConvertDxfToKml.create_kml_station_eval]
    have h : ([0, 10, 20, 30] : List ℝ).getD 1 0 = 10 := rfl
    rw [h]
    norm_num
  · rw [ConvertDxfToKml.assign_station_direct_eval]
    have h : ([0, 10, 20, 30] : List ℝ).getD 1 0 = 10 := rfl
    rw [h]
    norm_num

/-- C2: when the measured total cumulative distance exactly equals
`end_station - start_station` (and is nonzero, as required for the division),
the interpolation formula of `create_kml` and the direct cumulative-sum
formula agree at every index; and at the repository's test points with a
mismatched end station (total 30 vs end - start = 50) they diverge at
point 1. -/
theorem c2_interpolation_vs_direct :
    (∀ (points : List ConvertDxfToKml.DxfPoint) (start_station end_station : ℝ) (i : ℕ),
      (ConvertDxfToKml.calculate_cumulative_distances points).getLastD 0 =
          end_station - start_station →
      (ConvertDxfToKml.calculate_cumulative_distances points).getLastD 0 ≠ 0 →
      ConvertDxfToKml.create_kml_station points start_station end_station i =
        TestCoordinateFixes.assign_station_direct points start_station i) ∧
    ConvertDxfToKml.create_kml_station TestCoordinateFixes.test_points 30000 30050 1 ≠
      TestCoordinateFixes.assign_station_direct TestCoordinateFixes.test_points 30000 1 := by
  constructor
  · intro points s e i htot hne
    have hne' : e - s ≠ 0 := htot ▸ hne
    unfold ConvertDxfToKml.create_kml_station TestCoordinateFixes.assign_station_direct
    rw [htot]
    field_simp
  · rw [ConvertDxfToKml.create_kml_station_eval, ConvertDxfToKml.assign_station_direct_eval]
    have h : ([0, 10, 20, 30] : List ℝ).getD 1 0 = 10 := rfl
    rw [h]
    norm_num

/-- Witness for C2: at the test points with end station 30030 the measured
total (30) equals end - start exactly, and both formulas give 30010 at
point 1. -/
theorem c2_witness :
    ConvertDxfToKml.create_kml_station TestCoordinateFixes.test_points 30000 30030 1 =
      TestCoordinateFixes.assign_station_direct TestCoordinateFixes.test_points 30000 1 :=
  c2_interpolation_vs_direct.1 TestCoordinateFixes.test_points 30000 30030 1
    (by rw [ConvertDxfToKml.cum_test_points]; norm_num)
    (by rw [ConvertDxfToKml.cum_test_points]; norm_num)

/-- C5: `create_kml` performs no mismatch check at all: at the repository's
test points with start 30000 and wrong end station 30050, the measured total
is 30 ft, the discrepancy |30 - 50| = 20 ft exceeds any reasonable tolerance
(e.g. 1 ft), yet the station assigned to the last point is exactly the
supplied end station 30050 — the mismatch is silently absorbed by rescaling
instead of being surfaced by a warning (no warning branch exists in
`create_kml`, contradicting the repository's own test narrative). -/
theorem c5_mismatch_silently_rescaled :
    (ConvertDxfToKml.calculate_cumulative_distances TestCoordinateFixes.test_points).getLastD 0 =
      30 ∧
    |(30 : ℝ) - (30050 - 30000)| > 1 ∧
    ConvertDxfToKml.create_kml_station TestCoordinateFixes.test_points 30000 30050 3 =
      30050 ∧
    TestCoordinateFixes.assign_station_direct TestCoordinateFixes.test_points 30000 3 =
      30030 ∧
    (30050 : ℝ) ≠ 30030 := by
  refine ⟨?_, by norm_num, ?_, ?_, by norm_num⟩
  · rw [ConvertDxfToKml.cum_test_points]
    rfl
  · rw [ConvertDxfToKml.create_kml_station_eval]
    have h : ([0, 10, 20, 30] : List ℝ).getD 3 0 = 30 := rfl
    rw [h]
    norm_num
  · rw [ConvertDxfToKml.assign_station_direct_eval]
    have h : ([0, 10, 20, 30] : List ℝ).getD 3 0 = 30 := rfl
    rw [h]
    norm_num

/-- C10: `calculate_cumulative_distances` returns `[]` on `[]`, a list of the
same length as its input, whose first element is 0 for non-empty input, and
which is monotonically non-decreasing. -/
theorem c10_cumulative_distances_invariants (points : List ConvertDxfToKml.DxfPoint) :
    (points = [] → ConvertDxfToKml.calculate_cumulative_distances points = []) ∧
    (ConvertDxfToKml.calculate_cumulative_distances points).length = points.length ∧
    (points ≠ [] →
      (ConvertDxfToKml.calculate_cumulative_distances points).head? = some 0) ∧
    List.Chain' (· ≤ ·) (ConvertDxfToKml.calculate_cumulative_distances points) := by
  cases points with
  | nil =>
    exact ⟨fun _ => rfl, rfl, fun h => absurd rfl h, List.chain'_nil⟩
  | cons p ps =>
    refine ⟨(fun h => nomatch h), ?_, ?_, ?_⟩
    · simp [ConvertDxfToKml.calculate_cumulative_distances,
        ConvertDxfToKml.cumDistAux_length]
    · intro _
      simp [ConvertDxfToKml.calculate_cumulative_distances]
    · simpa [ConvertDxfToKml.calculate_cumulative_distances] using
        ConvertDxfToKml.cumDistAux_chain ps p 0

/-- Witness for C10 at a concrete singleton input. -/
theorem c10_witness :
    (ConvertDxfToKml.calculate_cumulative_distances
        [({ x := 0, y := 0, z := 0, layer := "0" } : ConvertDxfToKml.DxfPoint)]).head? =
      some 0 ∧
    (ConvertDxfToKml.calculate_cumulative_distances
        [({ x := 0, y := 0, z := 0, layer := "0" } : ConvertDxfToKml.DxfPoint)]).length = 1 := by
  have h := c10_cumulative_distances_invariants
      [({ x := 0, y := 0, z := 0, layer := "0" } : ConvertDxfToKml.DxfPoint)]
  exact ⟨h.2.2.1 (by simp), h.2.1⟩

/-- C7: the 2D distance of `analyze_coordinate_problem.py` and the 3D and
horizontal distances of `test_ifc_offset.py` are zero on identical points and
symmetric in their arguments. -/
theorem c7_distance_identity_and_symmetry (x1 y1 x2 y2 : ℝ)
    (P Q : TestIfcOffset.IfcPoint) :
    AnalyzeCoordinateProblem.calculate_distance_2d x1 y1 x1 y1 = 0 ∧
    AnalyzeCoordinateProblem.calculate_distance_2d x1 y1 x2 y2 =
      AnalyzeCoordinateProblem.calculate_distance_2d x2 y2 x1 y1 ∧
    TestIfcOffset.calculate_distance P P = 0 ∧
    TestIfcOffset.calculate_distance P Q = TestIfcOffset.calculate_distance Q P ∧
    TestIfcOffset.calculate_horizontal_distance P P = 0 ∧
    TestIfcOffset.calculate_horizontal_distance P Q =
      TestIfcOffset.calculate_horizontal_distance Q P := by
  unfold AnalyzeCoordinateProblem.calculate_distance_2d TestIfcOffset.calculate_distance
    TestIfcOffset.calculate_horizontal_distance
  refine ⟨by simp, ?_, by simp, ?_, by simp, ?_⟩ <;>
  · congr 1
    ring

/-- C6: `feet_to_meters` multiplies by the exact factor 1200/3937 and
`meters_to_feet` divides by it (`analyze_coordinate_problem.py`); both round
trips recover the input exactly (hence to floating-point precision), and the
`test_ifc_offset.py` variant (which divides by the double constant
0.3048006096012192) agrees with the exact variant to well within
floating-point precision: the difference is at most |x| / 10^15. -/
theorem c6_us_survey_foot_conversions (x : ℚ) :
    AnalyzeCoordinateProblem.feet_to_meters x = x * (1200 / 3937) ∧
    AnalyzeCoordinateProblem.meters_to_feet x = x / (1200 / 3937) ∧
    AnalyzeCoordinateProblem.meters_to_feet (AnalyzeCoordinateProblem.feet_to_meters x) = x ∧
    TestIfcOffset.meters_to_feet (TestIfcOffset.feet_to_meters x) = x ∧
    |TestIfcOffset.meters_to_feet x - AnalyzeCoordinateProblem.meters_to_feet x| ≤
      |x| / 10 ^ 15 := by
  refine ⟨rfl, rfl, ?_, ?_, ?_⟩
  · unfold AnalyzeCoordinateProblem.meters_to_feet AnalyzeCoordinateProblem.feet_to_meters
    field_simp
  · unfold TestIfcOffset.meters_to_feet TestIfcOffset.feet_to_meters
      TestIfcOffset.US_SURVEY_FOOT_TO_METER
    field_simp
  · have h : TestIfcOffset.meters_to_feet x - AnalyzeCoordinateProblem.meters_to_feet x =
        x * (1 / TestIfcOffset.US_SURVEY_FOOT_TO_METER - 3937 / 1200) := by
      unfold TestIfcOffset.meters_to_feet AnalyzeCoordinateProblem.meters_to_feet
      ring
    rw [h, abs_mul]
    have hk : |1 / TestIfcOffset.US_SURVEY_FOOT_TO_METER - 3937 / 1200| ≤ 1 / 10 ^ 15 := by
      unfold TestIfcOffset.US_SURVEY_FOOT_TO_METER
      rw [abs_le]
      constructor <;> norm_num
    calc |x| * |1 / TestIfcOffset.US_SURVEY_FOOT_TO_METER - 3937 / 1200| ≤
        |x| * (1 / 10 ^ 15) := mul_le_mul_of_nonneg_left hk (abs_nonneg x)
      _ = |x| / 10 ^ 15 := by ring

/-- C4: in both converters the CRS reprojection is applied to the horizontal
pair `(x, y)` only — the horizontal outputs equal the transformer's value on
`(x, y)` and do not depend on `z` — while the elevation output is the scalar
`elevation_unit_factor * z` (the factor is 1: these functions keep the
elevation in its source unit) and does not depend on the transformer or on
`(x, y)`; the corrected elevation path of `test_coordinate_fixes.py` is
likewise a bare scalar multiply by `US_SURVEY_FOOT_TO_METER`. -/
theorem c4_elevation_never_reprojected
    (T T2 : ℝ × ℝ → ℝ × ℝ) (registry registry2 : String → String → ℝ × ℝ → ℝ × ℝ)
    (sEpsg tEpsg : String) (x y z x2 y2 z2 : ℝ) (zq : ℚ) :
    (ConvertDxfToKml.transform_point x y z T).1 = (T (x, y)).1 ∧
    (ConvertDxfToKml.transform_point x y z T).2.1 = (T (x, y)).2 ∧
    (ConvertDxfToKml.transform_point x y z T).1 =
      (ConvertDxfToKml.transform_point x y z2 T).1 ∧
    (ConvertDxfToKml.transform_point x y z T).2.1 =
      (ConvertDxfToKml.transform_point x y z2 T).2.1 ∧
    (ConvertDxfToKml.transform_point x y z T).2.2 =
      ConvertDxfToKml.elevation_unit_factor * z ∧
    (ConvertDxfToKml.transform_point x y z T).2.2 =
      (ConvertDxfToKml.transform_point x2 y2 z T2).2.2 ∧
    (ConvertIfcToKml.transform_point registry x y z sEpsg tEpsg).1 =
      (registry sEpsg tEpsg (x, y)).1 ∧
    (ConvertIfcToKml.transform_point registry x y z sEpsg tEpsg).2.1 =
      (registry sEpsg tEpsg (x, y)).2 ∧
    (ConvertIfcToKml.transform_point registry x y z sEpsg tEpsg).1 =
      (ConvertIfcToKml.transform_point registry x y z2 sEpsg tEpsg).1 ∧
    (ConvertIfcToKml.transform_point registry x y z sEpsg tEpsg).2.2 =
      ConvertIfcToKml.elevation_unit_factor * z ∧
    (ConvertIfcToKml.transform_point registry x y z sEpsg tEpsg).2.2 =
      (ConvertIfcToKml.transform_point registry2 x2 y2 z sEpsg tEpsg).2.2 ∧
    TestCoordinateFixes.elev_correct_m zq =
      zq * TestCoordinateFixes.US_SURVEY_FOOT_TO_METER := by
  refine ⟨rfl, rfl, rfl, rfl, ?_, rfl, rfl, rfl, rfl, ?_, rfl, rfl⟩
  · exact (one_mul z).symm
  · exact (one_mul z).symm

namespace ConvertDxfToKml

theorem roundHalfEven_intCast (n : ℤ) : roundHalfEven (n : ℚ) = n := by
  unfold roundHalfEven
  simp [Int.floor_intCast]

theorem format_station_ex1 : format_station (3267 / 100) = "0+32.67" := by
  have hfl : Int.floor ((3267 : ℚ) / 100 / 100) = 0 := by
    rw [Int.floor_eq_iff] <;> norm_num
  have harg : ((3267 : ℚ) / 100 - 100 * ((0 : ℤ) : ℚ)) * 100 = ((3267 : ℤ) : ℚ) := by
    norm_num
  simp only [format_station, formatFixed2Pad5, hfl, harg, roundHalfEven_intCast]
  decide

theorem format_station_ex2 : format_station (1004877 / 100) = "100+48.77" := by
  have hfl : Int.floor ((1004877 : ℚ) / 100 / 100) = 100 := by
    rw [Int.floor_eq_iff] <;> norm_num
  have harg : ((1004877 : ℚ) / 100 - 100 * ((100 : ℤ) : ℚ)) * 100 = ((4877 : ℤ) : ℚ) := by
    norm_num
  simp only [format_station, formatFixed2Pad5, hfl, harg, roundHalfEven_intCast]
  decide

end ConvertDxfToKml

/-- C3: `format_station` renders a non-negative station value `v` as
`floor(v/100)`, a `'+'`, and `v mod 100` formatted to two decimal places and
zero-padded to five characters (the spec's formula, `formatStationSpec`), and
in particular maps 32.67 to `"0+32.67"` and 10048.77 to `"100+48.77"`. -/
theorem c3_format_station_matches_spec (v : ℚ) (hv : 0 ≤ v) :
    ConvertDxfToKml.format_station v = ConvertDxfToKml.formatStationSpec v ∧
    ConvertDxfToKml.format_station (3267 / 100) = "0+32.67" ∧
    ConvertDxfToKml.format_station (1004877 / 100) = "100+48.77" :=
  ⟨rfl, ConvertDxfToKml.format_station_ex1, ConvertDxfToKml.format_station_ex2⟩

/-- Witness for C3 at v = 32.67. -/
theorem c3_witness :
    ConvertDxfToKml.format_station (3267 / 100) = "0+32.67" :=
  (c3_format_station_matches_spec (3267 / 100) (by norm_num)).2.1

/-- C8: `parse_landxml_alignment` swaps every `<Start>`/`<End>`/`<Center>`
coordinate pair from the document's northing-then-easting order to
(easting, northing) before use: a `Line` contributes `(t[1], t[0])` for each
element, a complete `Curve` passes the swapped center/start/end pairs to
`interpolate_arc`, and `transform_coordinates` then just maps the 2D
transformer over the already-swapped pairs. -/
theorem c8_landxml_axis_order_swap
    (sN sE eN eE cN cE radius delta : ℝ) (rot : String) (r1 r2 r3 : List ℝ)
    (T : ℝ × ℝ → ℝ × ℝ) (pts : List (ℝ × ℝ)) :
    ConvertXmlToKml.parse_landxml_alignment
        [ConvertXmlToKml.LXGeomItem.lineItem
          (some ⟨sN :: sE :: r1⟩) (some ⟨eN :: eE :: r2⟩)] =
      ConvertXmlToKml.dedupConsecutive [(sE, sN), (eE, eN)] ∧
    ConvertXmlToKml.parse_landxml_alignment
        [ConvertXmlToKml.LXGeomItem.curveItem
          (some ⟨sN :: sE :: r1⟩) (some ⟨eN :: eE :: r2⟩) (some ⟨cN :: cE :: r3⟩)
          (some radius) (some delta) rot] =
      ConvertXmlToKml.dedupConsecutive
        (ConvertXmlToKml.interpolate_arc cE cN sE sN eE eN radius delta rot 50) ∧
    ConvertXmlToKml.transform_coordinates T pts = pts.map T := by
  refine ⟨?_, ?_, rfl⟩
  · simp [ConvertXmlToKml.parse_landxml_alignment, ConvertXmlToKml.processLine,
      ConvertXmlToKml.processCurve, ConvertXmlToKml.lineElementPoints]
  · simp [ConvertXmlToKml.parse_landxml_alignment, ConvertXmlToKml.processLine,
      ConvertXmlToKml.processCurve]

/-- C9 (amended): a row yields a control point exactly when it is well-formed
(at least 6 columns with columns 3, 4, 5 parsing as numbers); a skip warning
is printed exactly for rows with at least 6 columns whose numeric fields fail
to parse (shorter rows are skipped silently); and for any non-empty input the
parse succeeds, returning exactly the well-formed rows' points together with
the warnings, in order. -/
theorem c9_read_control_points_best_effort
    (header row : List ConvertControlPointsToKml.Cell)
    (rows : List (List ConvertControlPointsToKml.Cell)) :
    ((ConvertControlPointsToKml.processRow row).1.isSome = true ↔
      ConvertControlPointsToKml.wellFormedRow row) ∧
    ((ConvertControlPointsToKml.processRow row).2 ≠ [] ↔
      (6 ≤ row.length ∧ ¬ ConvertControlPointsToKml.wellFormedRow row)) ∧
    (ConvertControlPointsToKml.read_control_points (header :: rows)).isSome = true ∧
    ConvertControlPointsToKml.read_control_points (header :: rows) =
      some (rows.filterMap (fun r => (ConvertControlPointsToKml.processRow r).1),
        (rows.map (fun r => (ConvertControlPointsToKml.processRow r).2)).flatten) := by
  refine ⟨?_, ?_, rfl, rfl⟩ <;>
  · unfold ConvertControlPointsToKml.processRow ConvertControlPointsToKml.wellFormedRow
    by_cases h6 : 6 ≤ row.length
    · rw [if_pos h6]
      rcases h3 : ConvertControlPointsToKml.pyFloat
          (row.getD 3 ConvertControlPointsToKml.blankCell) with _ | v3 <;>
      rcases h4 : ConvertControlPointsToKml.pyFloat
          (row.getD 4 ConvertControlPointsToKml.blankCell) with _ | v4 <;>
      rcases h5 : ConvertControlPointsToKml.pyFloat
          (row.getD 5 ConvertControlPointsToKml.blankCell) with _ | v5 <;>
      simp [h3, h4, h5, h6]
    · rw [if_neg h6]
      simp [h6]

/-- Counterexample for C9 as stated: the three-column row
`["a", "b", "c"]` is malformed (not well-formed), is skipped, yet produces NO
warning — `read_control_points` drops it silently, contradicting "every
malformed row is skipped with a warning". -/
theorem c9_short_row_skipped_silently :
    ¬ ConvertControlPointsToKml.wellFormedRow ConvertControlPointsToKml.shortRow ∧
    (ConvertControlPointsToKml.processRow ConvertControlPointsToKml.shortRow).1 = none ∧
    (ConvertControlPointsToKml.processRow ConvertControlPointsToKml.shortRow).2 = [] ∧
    ConvertControlPointsToKml.read_control_points
        [ConvertControlPointsToKml.headerRow, ConvertControlPointsToKml.shortRow] =
      some ([], []) := by
  refine ⟨?_, rfl, rfl, rfl⟩
  intro h
  exact absurd h.1 (by decide)
